import Mathlib

/-!
Shallow embedding of `exporter.go` from the factorio-exporter repository.

The program reads a JSON metrics file, parses it with jsoniter into an
untyped `Any` value stored in `FactorioCollector.data`, and on each scrape
walks that tree with default-tolerant accessors (`Get`, `Keys`, `ToFloat64`,
`ToBool`, `ToInt`) emitting Prometheus const-metric samples.

Here the parsed document is the inductive `Json`; jsoniter's accessors are
the functions `Json.get1`, `Json.getPath`, `Json.keys`, `Json.toFloat64`,
`Json.toBool`, `Json.toInt`; Go's `float64` is modelled as `ℚ`; each
`collectXxxMetrics` method becomes a pure function from the stored document
to the list of samples it sends on the channel, in send order; `Collect`
threads the stored document explicitly.
-/

/-- Untyped JSON value as seen through jsoniter's `Any` interface.
`invalid` is the value jsoniter yields for a missing path or for input
that fails to parse: every accessor on it returns the type's zero value.
Objects keep their fields in source order and may in principle repeat keys,
exactly as a parsed JSON buffer can. -/
inductive Json where
  | null
  | invalid
  | bool (b : Bool)
  | num (q : ℚ)
  | str (s : String)
  | obj (kvs : List (String × Json))

/-- Integer truncation toward zero, the behaviour of Go's `float64` → `int`
conversion path taken by jsoniter's `ToInt` on a decimal number: `12.5 ↦ 12`,
`-3.7 ↦ -3`. -/
def ratTrunc (q : ℚ) : ℤ := q.num.tdiv q.den

/-- Modelled numeric coercion of a string, as jsoniter applies to string
values: parse the leading optional sign and decimal digits with an optional
fraction part; anything unparsable yields `0`. (Exponent forms are not
modelled; no part of the program under verification feeds strings to the
numeric accessors.) -/
def parseGoNumber (s : String) : ℚ :=
  let cs := s.toList
  let signed : ℤ × List Char :=
    match cs with
    | '-' :: rest => (-1, rest)
    | '+' :: rest => (1, rest)
    | _ => (1, cs)
  let intDigits := signed.2.takeWhile Char.isDigit
  let rest := signed.2.dropWhile Char.isDigit
  let fracDigits : List Char :=
    match rest with
    | '.' :: r => r.takeWhile Char.isDigit
    | _ => []
  let digitsVal : List Char → ℕ := fun l => l.foldl (fun acc c => acc * 10 + (c.toNat - 48)) 0
  if intDigits.isEmpty && fracDigits.isEmpty then 0
  else
    mkRat (signed.1 * ((digitsVal intDigits : ℤ) * 10 ^ fracDigits.length + (digitsVal fracDigits : ℤ)))
      (10 ^ fracDigits.length)

/-- Modelled boolean coercion of a string under jsoniter: `"0"` and
all-whitespace strings are false, everything else true. -/
def goStrToBool (s : String) : Bool :=
  if s = "0" then false
  else s.toList.any (fun c => !(c = ' ' || c = '\t' || c = '\n' || c = '\r'))

/-- Field lookup, jsoniter `Any.Get(key)`: on an object, the value of the
first field with that name; on anything else, or when the key is missing,
the invalid value. -/
def Json.get1 (j : Json) (k : String) : Json :=
  match j with
  | .obj kvs =>
    match kvs.find? (fun kv => kv.1 == k) with
    | some kv => kv.2
    | none => .invalid
  | _ => .invalid

/-- Path lookup, jsoniter `Any.Get(k₁, k₂, ...)`: iterated `get1`. -/
def Json.getPath (j : Json) : List String → Json
  | [] => j
  | k :: ks => (j.get1 k).getPath ks

/-- Child keys, jsoniter `Any.Keys()`: the field names of an object in
source order (duplicates included); empty for every other value. -/
def Json.keys : Json → List String
  | .obj kvs => kvs.map Prod.fst
  | _ => []

/-- Numeric coercion, jsoniter `Any.ToFloat64()`: a number is itself,
booleans are 1/0, strings parse their numeric prefix, and objects, null
and invalid values are 0. -/
def Json.toFloat64 : Json → ℚ
  | .num q => q
  | .bool true => 1
  | .bool false => 0
  | .str s => parseGoNumber s
  | _ => 0

/-- Boolean coercion, jsoniter `Any.ToBool()`: a boolean is itself, a
number is its non-zeroness, a string follows `goStrToBool`, an object is
its non-emptiness, null and invalid are false. -/
def Json.toBool : Json → Bool
  | .bool b => b
  | .num q => q != 0
  | .str s => goStrToBool s
  | .obj kvs => !kvs.isEmpty
  | _ => false

/-- Integer coercion, jsoniter `Any.ToInt()`: numbers truncate toward zero
(jsoniter reads the integer digits and ignores the rejected fraction),
booleans are 1/0, strings go through the numeric parse then truncate,
everything else is 0. -/
def Json.toInt : Json → ℤ
  | .num q => ratTrunc q
  | .bool true => 1
  | .bool false => 0
  | .str s => ratTrunc (parseGoNumber s)
  | _ => 0

/-- Metric value type of a Prometheus const metric. -/
inductive MetricType where
  | counter
  | gauge
deriving DecidableEq, Repr

/-- One const metric sent on the collect channel: the `Desc`'s family name
and variable-label names, the value type, the label values passed to
`MustNewConstMetric` in order, and the numeric value (`ℚ` for `float64`). -/
structure Sample where
  family : String
  mtype : MetricType
  labelNames : List String
  labelValues : List String
  value : ℚ
deriving DecidableEq, Repr

/-- Identity of a sample within one pass: its family name together with its
label values. -/
def sampleKey (s : Sample) : String × List String := (s.family, s.labelValues)

/-- Embeds `collectTimeMetrics`: the game-tick counter and the 0/1 pause
gauge, read from `game.time.tick` and `game.time.paused`. -/
def collectTimeMetrics (d : Json) : List Sample :=
  [ { family := "factorio_game_tick", mtype := .counter, labelNames := [], labelValues := [],
      value := (d.getPath ["game", "time", "tick"]).toFloat64 },
    { family := "factorio_game_paused", mtype := .gauge, labelNames := [], labelValues := [],
      value := if (d.getPath ["game", "time", "paused"]).toBool then 1 else 0 } ]

/-- Embeds `collectPlayerStateMetrics`: one 0/1 connection gauge per key of
the `players` object, labelled by username. -/
def collectPlayerStateMetrics (d : Json) : List Sample :=
  (d.get1 "players").keys.map (fun username =>
    { family := "factorio_player_connected", mtype := .gauge,
      labelNames := ["username"], labelValues := [username],
      value := if (d.getPath ["players", username, "connected"]).toBool then 1 else 0 })

/-- Embeds the per-prototype loop bodies of `collectForceMetrics`: for one
prototype node, the production counter (suppressed unless `> 0`) followed by
the consumption counter (same rule), tagged `ty` (`"items"` or `"fluids"`). -/
def prototypeSamples (forceName itemName surfaceName ty : String) (item : Json) : List Sample :=
  (if 0 < (item.get1 "production").toFloat64 then
    [ { family := "factorio_force_prototype_production", mtype := .counter,
        labelNames := ["force", "prototype", "surface", "type"],
        labelValues := [forceName, itemName, surfaceName, ty],
        value := (item.get1 "production").toFloat64 } ]
   else []) ++
  (if 0 < (item.get1 "consumption").toFloat64 then
    [ { family := "factorio_force_prototype_consumption", mtype := .counter,
        labelNames := ["force", "prototype", "surface", "type"],
        labelValues := [forceName, itemName, surfaceName, ty],
        value := (item.get1 "consumption").toFloat64 } ]
   else [])

/-- Embeds `collectForceMetrics`: per force, a research-progress gauge, then
the `items` sub-tree (keyed by surface, then by prototype) and the `fluids`
sub-tree, each prototype yielding production/consumption counters through
`prototypeSamples`. -/
def collectForceMetrics (d : Json) : List Sample :=
  (d.get1 "forces").keys.flatMap (fun forceName =>
    { family := "factorio_force_research_progress", mtype := .gauge,
      labelNames := ["force"], labelValues := [forceName],
      value := (((d.get1 "forces").get1 forceName).getPath ["research", "progress"]).toFloat64 } ::
    ((((d.get1 "forces").get1 forceName).get1 "items").keys.flatMap (fun surfaceName =>
      ((((d.get1 "forces").get1 forceName).get1 "items").get1 surfaceName).keys.flatMap
        (fun itemName =>
          prototypeSamples forceName itemName surfaceName "items"
            (((((d.get1 "forces").get1 forceName).get1 "items").get1 surfaceName).get1 itemName))) ++
     (((d.get1 "forces").get1 forceName).get1 "fluids").keys.flatMap (fun surfaceName =>
      ((((d.get1 "forces").get1 forceName).get1 "fluids").get1 surfaceName).keys.flatMap
        (fun fluidName =>
          prototypeSamples forceName fluidName surfaceName "fluids"
            (((((d.get1 "forces").get1 forceName).get1 "fluids").get1 surfaceName).get1 fluidName)))))

/-- Embeds `collectPollutionMetrics`: one gauge per (source, surface) pair
under the `pollution` object. -/
def collectPollutionMetrics (d : Json) : List Sample :=
  (d.get1 "pollution").keys.flatMap (fun surfaceName =>
    ((d.get1 "pollution").get1 surfaceName).keys.map (fun entityName =>
      { family := "factorio_surface_pollution_production", mtype := .gauge,
        labelNames := ["source", "surface"], labelValues := [entityName, surfaceName],
        value := (((d.get1 "pollution").get1 surfaceName).get1 entityName).toFloat64 }))

/-- Embeds `collectSurfaceMetrics`: per surface, a total-pollution gauge and
a ticks-per-day gauge. -/
def collectSurfaceMetrics (d : Json) : List Sample :=
  (d.get1 "surfaces").keys.flatMap (fun surfaceName =>
    [ { family := "factorio_surface_pollution_total", mtype := .gauge,
        labelNames := ["surface"], labelValues := [surfaceName],
        value := (((d.get1 "surfaces").get1 surfaceName).get1 "pollution").toFloat64 },
      { family := "factorio_surface_ticks_per_day", mtype := .gauge,
        labelNames := ["surface"], labelValues := [surfaceName],
        value := (((d.get1 "surfaces").get1 surfaceName).get1 "ticks_per_day").toFloat64 } ])

/-- Embeds `collectEntityMetrics`: one entity-count gauge per (entity name,
surface), with the force label fixed to `"player"`. -/
def collectEntityMetrics (d : Json) : List Sample :=
  (d.get1 "surfaces").keys.flatMap (fun surfaceName =>
    (((d.get1 "surfaces").get1 surfaceName).get1 "entities").keys.map (fun entityName =>
      { family := "factorio_entity_count", mtype := .gauge,
        labelNames := ["force", "name", "surface"],
        labelValues := ["player", entityName, surfaceName],
        value := ((((d.get1 "surfaces").get1 surfaceName).get1 "entities").get1
          entityName).toFloat64 }))

/-- Embeds `collectRocketMetrics`: per force, a cumulative launches counter
(`ToInt`-converted), then one items-launched counter per key of
`rockets.items` (also `ToInt`-converted). -/
def collectRocketMetrics (d : Json) : List Sample :=
  (d.get1 "forces").keys.flatMap (fun forceName =>
    { family := "factorio_rockets_launched", mtype := .counter,
      labelNames := ["force"], labelValues := [forceName],
      value := ((((d.get1 "forces").get1 forceName).getPath ["rockets", "launches"]).toInt : ℚ) } ::
    (((d.get1 "forces").get1 forceName).getPath ["rockets", "items"]).keys.map (fun itemName =>
      { family := "factorio_items_launched", mtype := .counter,
        labelNames := ["force", "name"], labelValues := [forceName, itemName],
        value := ((((d.get1 "forces").get1 forceName).getPath
          ["rockets", "items", itemName]).toInt : ℚ) }))

/-- Full extraction pipeline in `Collect`'s fixed call order. -/
def collectAll (d : Json) : List Sample :=
  collectTimeMetrics d ++ (collectPlayerStateMetrics d ++ (collectForceMetrics d ++
  (collectPollutionMetrics d ++ (collectSurfaceMetrics d ++ (collectEntityMetrics d ++
  collectRocketMetrics d)))))

/-- Content of the metrics file when `os.ReadFile` succeeds: either a
well-formed JSON document or bytes that do not parse as one. -/
inductive FileData where
  | ok (j : Json)
  | malformed

/-- External outcome of one scrape's attempt to read the metrics file. -/
inductive ScrapeInput where
  | ioErr
  | file (d : FileData)

/-- Error kind returned by `readMetricsData`: the wrapped `os.ReadFile`
failure. -/
inductive LoadError where
  | ioError
deriving DecidableEq

/-- Embeds `jsoniter.Get(data)` on the file bytes: a well-formed document
parses to itself; malformed bytes produce the invalid value, whose every
access yields a default (jsoniter reports no parse error at `Get` time). -/
def jsoniterGet : FileData → Json
  | .ok j => j
  | .malformed => .invalid

/-- Embeds `readMetricsData`, returning the stored document after the call
together with the returned error: on a read failure the store is untouched
and the wrapped error is returned; otherwise the (lazily parsed) new value
replaces the store and `nil` is returned. -/
def readMetricsData (inp : ScrapeInput) (old : Json) : Json × Option LoadError :=
  match inp with
  | .ioErr => (old, some .ioError)
  | .file fd => (jsoniterGet fd, none)

/-- Embeds `Collect` under the collector mutex: run `readMetricsData`; on
error, log and return having sent nothing; on success run the seven
extractors over the stored document. Returns the stored document after the
scrape and the samples sent, in order. -/
def Collect (inp : ScrapeInput) (old : Json) : Json × List Sample :=
  let r := readMetricsData inp old
  match r.2 with
  | some _ => (r.1, [])
  | none => (r.1, collectAll r.1)

/-- Boolean test that a sample belongs to family `fam` with label values
`ls` — the (family, label values) identity the uniqueness invariant talks
about. -/
def sampleMatches (fam : String) (ls : List String) (s : Sample) : Bool :=
  decide (s.family = fam ∧ s.labelValues = ls)

/-- Field name read by the production (`true`) or consumption (`false`) arm
of the per-prototype loop body. -/
def prodFieldName : Bool → String
  | true => "production"
  | false => "consumption"

/-- Family name emitted by the production (`true`) or consumption (`false`)
arm of the per-prototype loop body. -/
def prodFamilyName : Bool → String
  | true => "factorio_force_prototype_production"
  | false => "factorio_force_prototype_consumption"

/-- Well-formedness of a snapshot as a key-value tree: every object the
extraction pipeline iterates has pairwise-distinct keys. A JSON document
without repeated member names satisfies this by construction; the spec's
data model (a tree keyed by strings) assumes it. -/
def SnapshotWF (d : Json) : Prop :=
  (d.get1 "players").keys.Nodup ∧
  (d.get1 "forces").keys.Nodup ∧
  (∀ f ∈ (d.get1 "forces").keys,
    (((d.get1 "forces").get1 f).get1 "items").keys.Nodup ∧
    (∀ sn ∈ (((d.get1 "forces").get1 f).get1 "items").keys,
      ((((d.get1 "forces").get1 f).get1 "items").get1 sn).keys.Nodup) ∧
    (((d.get1 "forces").get1 f).get1 "fluids").keys.Nodup ∧
    (∀ sn ∈ (((d.get1 "forces").get1 f).get1 "fluids").keys,
      ((((d.get1 "forces").get1 f).get1 "fluids").get1 sn).keys.Nodup) ∧
    ((((d.get1 "forces").get1 f).get1 "rockets").get1 "items").keys.Nodup) ∧
  (d.get1 "pollution").keys.Nodup ∧
  (∀ sn ∈ (d.get1 "pollution").keys, ((d.get1 "pollution").get1 sn).keys.Nodup) ∧
  (d.get1 "surfaces").keys.Nodup ∧
  (∀ sn ∈ (d.get1 "surfaces").keys, (((d.get1 "surfaces").get1 sn).get1 "entities").keys.Nodup)

instance (d : Json) : Decidable (SnapshotWF d) := by
  unfold SnapshotWF
  infer_instance

/-- Snapshot installed by a successful earlier scrape, used to exhibit what
a malformed later read does to the store. -/
def loadedDoc : Json :=
  .obj [("game", .obj [("time", .obj [("tick", .num 42)])])]

/-- Snapshot whose `time` section sits at the root rather than under
`game`, the layout the spec's path table describes. -/
def timeAtRoot : Json :=
  .obj [("time", .obj [("tick", .num 7), ("paused", .bool true)])]

/-- Snapshot of the spec's rocket test vector: 12 launches and 300
iron plates launched for force Engineers. -/
def rocketSnapshot : Json :=
  .obj [("forces", .obj [("Engineers", .obj [("rockets",
    .obj [("launches", .num 12), ("items", .obj [("iron-plate", .num 300)])])])])]

/-- Snapshot carrying a negative game tick. -/
def negativeTick : Json :=
  .obj [("game", .obj [("time", .obj [("tick", .num (-5))])])]

/-- Snapshot with a single production figure of 5 for one force, surface
and prototype. -/
def productionSnapshot : Json :=
  .obj [("forces", .obj [("F", .obj [("items", .obj [("surf",
    .obj [("iron", .obj [("production", .num 5)])])])])])]

/-- Snapshot family feeding the same numeric value `q` to a rocket launch
counter (integer-converted) and to a production counter (passed through). -/
def fractionalSnapshot (q : ℚ) : Json :=
  .obj [("forces", .obj [("F", .obj [
    ("rockets", .obj [("launches", .num q), ("items", .obj [("it", .num q)])]),
    ("items", .obj [("surf", .obj [("it", .obj [("production", .num q)])])])])])]

/-- Richer well-formed snapshot exercising every extractor at once. -/
def richSnapshot : Json :=
  .obj [
    ("game", .obj [("time", .obj [("tick", .num 1000), ("paused", .bool false)])]),
    ("players", .obj [("ada", .obj [("connected", .bool true)]), ("bob", .obj [("connected", .bool false)])]),
    ("forces", .obj [
      ("player", .obj [
        ("research", .obj [("progress", .num 1)]),
        ("items", .obj [("nauvis", .obj [
          ("iron", .obj [("production", .num 5), ("consumption", .num 3)]),
          ("copper", .obj [("production", .num 0)])])]),
        ("fluids", .obj [("nauvis", .obj [("water", .obj [("production", .num 9), ("consumption", .num 2)])])]),
        ("rockets", .obj [("launches", .num 2), ("items", .obj [("satellite", .num 1)])])]),
      ("enemy", .obj [])]),
    ("pollution", .obj [("nauvis", .obj [("boiler", .num 10), ("tree", .num (-4))])]),
    ("surfaces", .obj [("nauvis", .obj [
      ("pollution", .num 77), ("ticks_per_day", .num 25000),
      ("entities", .obj [("assembler", .num 12), ("inserter", .num 40)])])])]

example : ratTrunc (mkRat 25 2) = 12 := by decide
example : ratTrunc (mkRat (-37) 10) = -3 := by decide
example : parseGoNumber "12.5" = mkRat 25 2 := by decide
example :
    collectTimeMetrics (Json.obj [("game", Json.obj [("time", Json.obj [("tick", Json.num 42)])])]) =
      [ { family := "factorio_game_tick", mtype := .counter, labelNames := [], labelValues := [], value := 42 },
        { family := "factorio_game_paused", mtype := .gauge, labelNames := [], labelValues := [], value := 0 } ] := by
  decide
example : SnapshotWF richSnapshot := by decide

/-! ## General helper lemmas about the accessors -/

theorem get1_of_not_mem_keys {j : Json} {k : String} (h : k ∉ j.keys) :
    j.get1 k = Json.invalid := by
  cases j with
  | obj kvs =>
    simp only [Json.keys, List.mem_map] at h
    have hnone : kvs.find? (fun kv => kv.1 == k) = none := by
      rw [List.find?_eq_none]
      intro kv hkv
      simp only [beq_iff_eq]
      exact fun he => h ⟨kv, hkv, he⟩
    simp [Json.get1, hnone]
  | null => rfl
  | invalid => rfl
  | bool b => rfl
  | num q => rfl
  | str s => rfl

theorem invalid_get1 (k : String) : Json.invalid.get1 k = Json.invalid := rfl

theorem invalid_getPath (ks : List String) : Json.invalid.getPath ks = Json.invalid := by
  induction ks with
  | nil => rfl
  | cons k ks ih => simpa [Json.getPath, invalid_get1] using ih

theorem invalid_toFloat64 : Json.invalid.toFloat64 = 0 := rfl

theorem filter_flatMap {α β : Type _} (l : List α) (g : α → List β) (p : β → Bool) :
    (l.flatMap g).filter p = l.flatMap (fun a => (g a).filter p) := by
  induction l with
  | nil => rfl
  | cons a l ih => simp [List.flatMap_cons, List.filter_append, ih]

theorem flatMap_eq_of_single {α β : Type _} [DecidableEq α] {ks : List α} (hk : ks.Nodup)
    (a : α) (g : α → List β) (h : ∀ k ∈ ks, k ≠ a → g k = []) :
    ks.flatMap g = if a ∈ ks then g a else [] := by
  induction ks with
  | nil => rfl
  | cons k ks ih =>
    rw [List.flatMap_cons]
    rcases List.nodup_cons.mp hk with ⟨hka, hnd⟩
    by_cases hk_eq : k = a
    · subst hk_eq
      have htail : ks.flatMap g = [] := by
        rw [List.flatMap_eq_nil_iff]
        intro k' hk'
        exact h k' (List.mem_cons_of_mem _ hk') (fun he => hka (he ▸ hk'))
      simp [htail]
    · have hgk : g k = [] := h k (List.mem_cons_self k ks) hk_eq
      rw [hgk, List.nil_append, ih hnd (fun k' hk' => h k' (List.mem_cons_of_mem _ hk'))]
      by_cases ha : a ∈ ks
      · rw [if_pos ha, if_pos (List.mem_cons_of_mem _ ha)]
      · refine (if_neg ha).trans (if_neg ?_).symm
        intro hmem
        rcases List.mem_cons.mp hmem with he | hm
        · exact hk_eq he.symm
        · exact ha hm

theorem nodup_map_append {α κ : Type _} (key : α → κ) {l₁ l₂ : List α}
    (h₁ : (l₁.map key).Nodup) (h₂ : (l₂.map key).Nodup)
    (hd : ∀ s₁ ∈ l₁, ∀ s₂ ∈ l₂, key s₁ ≠ key s₂) :
    ((l₁ ++ l₂).map key).Nodup := by
  rw [List.map_append, List.nodup_append]
  refine ⟨h₁, h₂, ?_⟩
  intro x hx hy
  rcases List.mem_map.mp hx with ⟨s₁, hs₁, rfl⟩
  rcases List.mem_map.mp hy with ⟨s₂, hs₂, he⟩
  exact hd s₁ hs₁ s₂ hs₂ he.symm

theorem nodup_map_flatMap {α κ : Type _} (key : α → κ) {ks : List String} (hk : ks.Nodup)
    (F : String → List α)
    (hF : ∀ k ∈ ks, ((F k).map key).Nodup)
    (hdisj : ∀ k₁ ∈ ks, ∀ k₂ ∈ ks, k₁ ≠ k₂ → ∀ s₁ ∈ F k₁, ∀ s₂ ∈ F k₂, key s₁ ≠ key s₂) :
    ((ks.flatMap F).map key).Nodup := by
  rw [List.map_flatMap, List.nodup_flatMap]
  refine ⟨fun k hkm => hF k hkm, ?_⟩
  refine hk.imp_of_mem (fun {a b} ha hb hab => ?_)
  intro x hx hy
  rcases List.mem_map.mp hx with ⟨s₁, hs₁, rfl⟩
  rcases List.mem_map.mp hy with ⟨s₂, hs₂, he⟩
  exact hdisj a ha b hb hab s₁ hs₁ s₂ hs₂ he.symm

theorem mem_if_singleton {β : Type _} {c : Prop} [Decidable c] {a s : β} :
    s ∈ (if c then [a] else []) ↔ c ∧ s = a := by
  split <;> simp_all

/-! ## Shape lemmas about the extractors -/

theorem mem_prototypeSamples {s : Sample} {f i sf ty : String} {item : Json}
    (h : s ∈ prototypeSamples f i sf ty item) :
    (s.family = "factorio_force_prototype_production" ∨
      s.family = "factorio_force_prototype_consumption") ∧
    s.mtype = MetricType.counter ∧ s.labelValues = [f, i, sf, ty] ∧ 0 < s.value := by
  rcases List.mem_append.mp h with hp | hp <;>
    rcases mem_if_singleton.mp hp with ⟨hc, rfl⟩ <;> simp_all

theorem sampleMatches_eq_true {fam : String} {ls : List String} {s : Sample} :
    sampleMatches fam ls s = true ↔ s.family = fam ∧ s.labelValues = ls := by
  simp [sampleMatches]

theorem filter_guard_singleton {c : Prop} [Decidable c] (p : Sample → Bool) (a : Sample) :
    (if c then [a] else []).filter p = if c ∧ p a = true then [a] else [] := by
  by_cases hc : c
  · rw [if_pos hc]
    by_cases hp : p a = true
    · rw [if_pos ⟨hc, hp⟩]
      simp [List.filter_cons, hp]
    · rw [if_neg (fun hx => hp hx.2)]
      simp [List.filter_cons, hp]
  · rw [if_neg hc, if_neg (fun hx => hc hx.1)]
    rfl

theorem filter_cons_of_neg {p : Sample → Bool} {x : Sample} {l : List Sample}
    (h : p x = false) : (x :: l).filter p = l.filter p := by
  simp [List.filter_cons, h]

theorem sampleMatches_research (sel : Bool) (ls : List String) (fn : String) (v : ℚ) :
    sampleMatches (prodFamilyName sel) ls
      { family := "factorio_force_research_progress", mtype := MetricType.gauge,
        labelNames := ["force"], labelValues := [fn], value := v } = false := by
  cases sel <;> simp [sampleMatches, prodFamilyName]

theorem filter_prototypeSamples (sel : Bool) (fn it sn ty p sfc tyq : String) (item : Json) :
    (prototypeSamples fn it sn ty item).filter
        (sampleMatches (prodFamilyName sel) [fn, p, sfc, tyq]) =
      if (it = p ∧ sn = sfc ∧ ty = tyq) ∧ 0 < (item.get1 (prodFieldName sel)).toFloat64 then
        [{ family := prodFamilyName sel, mtype := MetricType.counter,
           labelNames := ["force", "prototype", "surface", "type"],
           labelValues := [fn, it, sn, ty],
           value := (item.get1 (prodFieldName sel)).toFloat64 }]
      else [] := by
  by_cases hl : it = p ∧ sn = sfc ∧ ty = tyq
  · obtain ⟨rfl, rfl, rfl⟩ := hl
    cases sel <;>
      simp [prototypeSamples, prodFamilyName, prodFieldName, filter_guard_singleton,
        sampleMatches, List.filter_append]
  · cases sel <;>
      simp [prototypeSamples, prodFamilyName, prodFieldName, filter_guard_singleton,
        sampleMatches, List.filter_append, hl]

theorem filter_other_tree (sel : Bool) (fn ty tyq : String) (tree : Json) (p sfc : String)
    (hne : ty ≠ tyq) :
    (tree.keys.flatMap (fun sn =>
        (tree.get1 sn).keys.flatMap (fun it =>
          prototypeSamples fn it sn ty ((tree.get1 sn).get1 it)))).filter
      (sampleMatches (prodFamilyName sel) [fn, p, sfc, tyq]) = [] := by
  rw [List.filter_eq_nil_iff]
  intro s hs hp
  rcases List.mem_flatMap.mp hs with ⟨sn, hsn, hmem⟩
  rcases List.mem_flatMap.mp hmem with ⟨it, hit, hmem2⟩
  rcases sampleMatches_eq_true.mp hp with ⟨-, hv⟩
  rw [(mem_prototypeSamples hmem2).2.2.1] at hv
  simp only [List.cons.injEq] at hv
  exact hne hv.2.2.2.1

theorem filter_treePart (sel : Bool) (fn ty : String) (tree : Json) (p sfc : String)
    (h1 : tree.keys.Nodup) (h2 : ∀ sn ∈ tree.keys, (tree.get1 sn).keys.Nodup) :
    (tree.keys.flatMap (fun sn =>
        (tree.get1 sn).keys.flatMap (fun it =>
          prototypeSamples fn it sn ty ((tree.get1 sn).get1 it)))).filter
      (sampleMatches (prodFamilyName sel) [fn, p, sfc, ty]) =
    if 0 < (((tree.get1 sfc).get1 p).get1 (prodFieldName sel)).toFloat64 then
      [{ family := prodFamilyName sel, mtype := MetricType.counter,
         labelNames := ["force", "prototype", "surface", "type"],
         labelValues := [fn, p, sfc, ty],
         value := (((tree.get1 sfc).get1 p).get1 (prodFieldName sel)).toFloat64 }]
    else [] := by
  rw [filter_flatMap]
  have hkill : ∀ sn ∈ tree.keys, sn ≠ sfc →
      ((tree.get1 sn).keys.flatMap (fun it =>
        prototypeSamples fn it sn ty ((tree.get1 sn).get1 it))).filter
        (sampleMatches (prodFamilyName sel) [fn, p, sfc, ty]) = [] := by
    intro sn hsn hne
    rw [List.filter_eq_nil_iff]
    intro s hs hp
    rcases List.mem_flatMap.mp hs with ⟨it, hit, hmem⟩
    rcases sampleMatches_eq_true.mp hp with ⟨-, hv⟩
    rw [(mem_prototypeSamples hmem).2.2.1] at hv
    simp only [List.cons.injEq] at hv
    exact hne hv.2.2.1
  rw [flatMap_eq_of_single h1 sfc _ hkill]
  by_cases hsfc : sfc ∈ tree.keys
  · rw [if_pos hsfc, filter_flatMap]
    have hkill2 : ∀ it ∈ (tree.get1 sfc).keys, it ≠ p →
        (prototypeSamples fn it sfc ty ((tree.get1 sfc).get1 it)).filter
          (sampleMatches (prodFamilyName sel) [fn, p, sfc, ty]) = [] := by
      intro it hit hne
      rw [filter_prototypeSamples]
      rw [if_neg (fun hx => hne hx.1.1)]
    rw [flatMap_eq_of_single (h2 sfc hsfc) p _ hkill2]
    by_cases hp : p ∈ (tree.get1 sfc).keys
    · rw [if_pos hp, filter_prototypeSamples]
      by_cases hv : 0 < (((tree.get1 sfc).get1 p).get1 (prodFieldName sel)).toFloat64
      · rw [if_pos ⟨⟨rfl, rfl, rfl⟩, hv⟩, if_pos hv]

      · rw [if_neg (fun hx => hv hx.2), if_neg hv]
    · rw [if_neg hp, get1_of_not_mem_keys hp, invalid_get1, invalid_toFloat64]
      rw [if_neg (lt_irrefl 0)]
  · rw [if_neg hsfc, get1_of_not_mem_keys hsfc, invalid_get1, invalid_get1, invalid_toFloat64]
    rw [if_neg (lt_irrefl 0)]

theorem filter_collectForce (d : Json) (sel : Bool) (tree : String) (f sfc p : String)
    (htree : tree = "items" ∨ tree = "fluids")
    (hforces : (d.get1 "forces").keys.Nodup)
    (htrees : ∀ fn ∈ (d.get1 "forces").keys,
      (((d.get1 "forces").get1 fn).get1 tree).keys.Nodup ∧
      (∀ sn ∈ (((d.get1 "forces").get1 fn).get1 tree).keys,
        ((((d.get1 "forces").get1 fn).get1 tree).get1 sn).keys.Nodup)) :
    (collectForceMetrics d).filter
        (sampleMatches (prodFamilyName sel) [f, p, sfc, tree]) =
    if 0 <
        ((((((d.get1 "forces").get1 f).get1 tree).get1 sfc).get1 p).get1
            (prodFieldName sel)).toFloat64 then
      [{ family := prodFamilyName sel, mtype := MetricType.counter,
         labelNames := ["force", "prototype", "surface", "type"],
         labelValues := [f, p, sfc, tree],
         value := ((((((d.get1 "forces").get1 f).get1 tree).get1 sfc).get1 p).get1
            (prodFieldName sel)).toFloat64 }]
    else [] := by
  rw [collectForceMetrics, filter_flatMap]
  have hkill : ∀ fn ∈ (d.get1 "forces").keys, fn ≠ f →
      ({ family := "factorio_force_research_progress", mtype := MetricType.gauge,
         labelNames := ["force"], labelValues := [fn],
         value := (((d.get1 "forces").get1 fn).getPath ["research", "progress"]).toFloat64 } ::
       ((((d.get1 "forces").get1 fn).get1 "items").keys.flatMap (fun surfaceName =>
         ((((d.get1 "forces").get1 fn).get1 "items").get1 surfaceName).keys.flatMap
           (fun itemName =>
             prototypeSamples fn itemName surfaceName "items"
               (((((d.get1 "forces").get1 fn).get1 "items").get1 surfaceName).get1 itemName))) ++
        (((d.get1 "forces").get1 fn).get1 "fluids").keys.flatMap (fun surfaceName =>
         ((((d.get1 "forces").get1 fn).get1 "fluids").get1 surfaceName).keys.flatMap
           (fun fluidName =>
             prototypeSamples fn fluidName surfaceName "fluids"
               (((((d.get1 "forces").get1 fn).get1 "fluids").get1 surfaceName).get1
                 fluidName))))).filter
        (sampleMatches (prodFamilyName sel) [f, p, sfc, tree]) = [] := by
    intro fn hfn hne
    rw [List.filter_eq_nil_iff]
    intro s hs hp
    rcases sampleMatches_eq_true.mp hp with ⟨-, hv⟩
    rcases List.mem_cons.mp hs with rfl | hs
    · simp only [List.cons.injEq] at hv
      exact hne hv.1
    · rcases List.mem_append.mp hs with hs | hs <;>
      · rcases List.mem_flatMap.mp hs with ⟨sn, hsn, hmem⟩
        rcases List.mem_flatMap.mp hmem with ⟨it, hit, hmem2⟩
        rw [(mem_prototypeSamples hmem2).2.2.1] at hv
        simp only [List.cons.injEq] at hv
        exact hne hv.1
  rw [flatMap_eq_of_single hforces f _ hkill]
  by_cases hf : f ∈ (d.get1 "forces").keys
  · rw [if_pos hf]
    rw [filter_cons_of_neg (sampleMatches_research sel [f, p, sfc, tree] f _)]
    rw [List.filter_append]
    rcases htree with rfl | rfl
    · rw [filter_other_tree sel f "fluids" "items" _ p sfc (by decide)]
      rw [List.append_nil]
      exact filter_treePart sel f "items" _ p sfc (htrees f hf).1 (htrees f hf).2
    · rw [filter_other_tree sel f "items" "fluids" _ p sfc (by decide)]
      rw [List.nil_append]
      exact filter_treePart sel f "fluids" _ p sfc (htrees f hf).1 (htrees f hf).2
  · rw [if_neg hf, get1_of_not_mem_keys hf, invalid_get1, invalid_get1, invalid_get1,
      invalid_get1, invalid_toFloat64]
    rw [if_neg (lt_irrefl 0)]

/-! ## Uniqueness machinery: no two samples of one pass share (family, label values) -/

theorem key_snd {s₁ s₂ : Sample} (he : sampleKey s₁ = sampleKey s₂) :
    s₁.labelValues = s₂.labelValues := congrArg Prod.snd he

theorem key_fst {s₁ s₂ : Sample} (he : sampleKey s₁ = sampleKey s₂) :
    s₁.family = s₂.family := congrArg Prod.fst he

theorem families_disjoint_key_ne {s₁ s₂ : Sample} {L₁ L₂ : List String}
    (h₁ : s₁.family ∈ L₁) (h₂ : s₂.family ∈ L₂) (hd : ∀ a ∈ L₁, a ∉ L₂) :
    sampleKey s₁ ≠ sampleKey s₂ := by
  intro he
  exact hd _ h₁ (key_fst he ▸ h₂)

theorem fam_append {A B : List Sample} {LA LB : List String}
    (hA : ∀ s ∈ A, s.family ∈ LA) (hB : ∀ s ∈ B, s.family ∈ LB) :
    ∀ s ∈ A ++ B, s.family ∈ LA ++ LB := by
  intro s hs
  rcases List.mem_append.mp hs with hs | hs
  · exact List.mem_append.mpr (Or.inl (hA s hs))
  · exact List.mem_append.mpr (Or.inr (hB s hs))

theorem fam_collectTime (d : Json) :
    ∀ s ∈ collectTimeMetrics d,
      s.family ∈ ["factorio_game_tick", "factorio_game_paused"] := by
  intro s hs
  rcases List.mem_cons.mp hs with rfl | hs
  · simp
  rcases List.mem_cons.mp hs with rfl | hs
  · simp
  · exact absurd hs (List.not_mem_nil s)

theorem fam_collectPlayer (d : Json) :
    ∀ s ∈ collectPlayerStateMetrics d, s.family ∈ ["factorio_player_connected"] := by
  intro s hs
  rcases List.mem_map.mp hs with ⟨u, hu, rfl⟩
  simp

theorem fam_collectForce (d : Json) :
    ∀ s ∈ collectForceMetrics d,
      s.family ∈ ["factorio_force_research_progress",
        "factorio_force_prototype_production", "factorio_force_prototype_consumption"] := by
  intro s hs
  simp only [collectForceMetrics, List.mem_flatMap, List.mem_cons, List.mem_append] at hs
  rcases hs with ⟨fn, hfn, hmem⟩
  rcases hmem with rfl | hp | hp
  · simp
  · rcases hp with ⟨sn, hsn, it, hit, hp3⟩
    rcases (mem_prototypeSamples hp3).1 with hf | hf <;> simp [hf]
  · rcases hp with ⟨sn, hsn, it, hit, hp3⟩
    rcases (mem_prototypeSamples hp3).1 with hf | hf <;> simp [hf]

theorem fam_collectPollution (d : Json) :
    ∀ s ∈ collectPollutionMetrics d,
      s.family ∈ ["factorio_surface_pollution_production"] := by
  intro s hs
  simp only [collectPollutionMetrics, List.mem_flatMap, List.mem_map] at hs
  rcases hs with ⟨sn, hsn, e, he, rfl⟩
  simp

theorem fam_collectSurface (d : Json) :
    ∀ s ∈ collectSurfaceMetrics d,
      s.family ∈ ["factorio_surface_pollution_total", "factorio_surface_ticks_per_day"] := by
  intro s hs
  simp only [collectSurfaceMetrics, List.mem_flatMap, List.mem_cons] at hs
  rcases hs with ⟨sn, hsn, hmem⟩
  rcases hmem with rfl | rfl | hmem
  · simp
  · simp
  · exact absurd hmem (List.not_mem_nil s)

theorem fam_collectEntity (d : Json) :
    ∀ s ∈ collectEntityMetrics d, s.family ∈ ["factorio_entity_count"] := by
  intro s hs
  simp only [collectEntityMetrics, List.mem_flatMap, List.mem_map] at hs
  rcases hs with ⟨sn, hsn, e, he, rfl⟩
  simp

theorem fam_collectRocket (d : Json) :
    ∀ s ∈ collectRocketMetrics d,
      s.family ∈ ["factorio_rockets_launched", "factorio_items_launched"] := by
  intro s hs
  simp only [collectRocketMetrics, List.mem_flatMap, List.mem_cons, List.mem_map] at hs
  rcases hs with ⟨fn, hfn, rfl | ⟨it, hit, rfl⟩⟩ <;> simp

theorem nodup_key_prototypeSamples (f i sf ty : String) (item : Json) :
    ((prototypeSamples f i sf ty item).map sampleKey).Nodup := by
  rw [prototypeSamples]
  by_cases h1 : 0 < (item.get1 "production").toFloat64 <;>
    by_cases h2 : 0 < (item.get1 "consumption").toFloat64 <;>
      simp [h1, h2, sampleKey]

theorem nodup_key_treePart (fn ty : String) (tree : Json)
    (h1 : tree.keys.Nodup) (h2 : ∀ sn ∈ tree.keys, (tree.get1 sn).keys.Nodup) :
    ((tree.keys.flatMap (fun sn =>
        (tree.get1 sn).keys.flatMap (fun it =>
          prototypeSamples fn it sn ty ((tree.get1 sn).get1 it)))).map sampleKey).Nodup := by
  apply nodup_map_flatMap sampleKey h1
  · intro sn hsn
    apply nodup_map_flatMap sampleKey (h2 sn hsn)
    · intro it hit
      exact nodup_key_prototypeSamples fn it sn ty _
    · intro it₁ hi₁ it₂ hi₂ hne s₁ hs₁ s₂ hs₂ he
      have hv := key_snd he
      rw [(mem_prototypeSamples hs₁).2.2.1, (mem_prototypeSamples hs₂).2.2.1] at hv
      simp only [List.cons.injEq] at hv
      exact hne hv.2.1
  · intro sn₁ hs₁ sn₂ hs₂ hne s₁ hm₁ s₂ hm₂ he
    rcases List.mem_flatMap.mp hm₁ with ⟨it₁, hi₁, hp₁⟩
    rcases List.mem_flatMap.mp hm₂ with ⟨it₂, hi₂, hp₂⟩
    have hv := key_snd he
    rw [(mem_prototypeSamples hp₁).2.2.1, (mem_prototypeSamples hp₂).2.2.1] at hv
    simp only [List.cons.injEq] at hv
    exact hne hv.2.2.1

theorem nodup_key_time (d : Json) : ((collectTimeMetrics d).map sampleKey).Nodup := by
  show ([("factorio_game_tick", ([] : List String)),
    ("factorio_game_paused", [])] : List (String × List String)).Nodup
  decide

theorem nodup_key_player (d : Json) (hp : (d.get1 "players").keys.Nodup) :
    ((collectPlayerStateMetrics d).map sampleKey).Nodup := by
  rw [collectPlayerStateMetrics, List.map_map]
  exact hp.map (fun u v h => by simpa [sampleKey] using h)

theorem nodup_key_force (d : Json) (hforces : (d.get1 "forces").keys.Nodup)
    (hfa : ∀ fn ∈ (d.get1 "forces").keys,
      (((d.get1 "forces").get1 fn).get1 "items").keys.Nodup ∧
      (∀ sn ∈ (((d.get1 "forces").get1 fn).get1 "items").keys,
        ((((d.get1 "forces").get1 fn).get1 "items").get1 sn).keys.Nodup) ∧
      (((d.get1 "forces").get1 fn).get1 "fluids").keys.Nodup ∧
      (∀ sn ∈ (((d.get1 "forces").get1 fn).get1 "fluids").keys,
        ((((d.get1 "forces").get1 fn).get1 "fluids").get1 sn).keys.Nodup)) :
    ((collectForceMetrics d).map sampleKey).Nodup := by
  rw [collectForceMetrics]
  apply nodup_map_flatMap sampleKey hforces
  · intro fn hfn
    rw [List.map_cons, List.nodup_cons]
    constructor
    · intro hmem
      rcases List.mem_map.mp hmem with ⟨s, hs, he⟩
      have hf : s.family = "factorio_force_research_progress" := key_fst he
      rcases List.mem_append.mp hs with hs | hs <;>
        (rcases List.mem_flatMap.mp hs with ⟨sn, hsn, hm2⟩;
         rcases List.mem_flatMap.mp hm2 with ⟨it, hit, hm3⟩;
         rcases (mem_prototypeSamples hm3).1 with hg | hg <;>
           (rw [hg] at hf; simp at hf))
    · apply nodup_map_append sampleKey
      · exact nodup_key_treePart fn "items" _ (hfa fn hfn).1 (hfa fn hfn).2.1
      · exact nodup_key_treePart fn "fluids" _ (hfa fn hfn).2.2.1 (hfa fn hfn).2.2.2
      · intro s₁ hm₁ s₂ hm₂ he
        rcases List.mem_flatMap.mp hm₁ with ⟨sn₁, hsn₁, hm₁b⟩
        rcases List.mem_flatMap.mp hm₁b with ⟨it₁, hit₁, hp₁⟩
        rcases List.mem_flatMap.mp hm₂ with ⟨sn₂, hsn₂, hm₂b⟩
        rcases List.mem_flatMap.mp hm₂b with ⟨it₂, hit₂, hp₂⟩
        have hv := key_snd he
        rw [(mem_prototypeSamples hp₁).2.2.1, (mem_prototypeSamples hp₂).2.2.1] at hv
        simp only [List.cons.injEq] at hv
        exact absurd hv.2.2.2.1 (by decide)
  · intro fn₁ h₁ fn₂ h₂ hne s₁ hs₁ s₂ hs₂ he
    have l₁ : ∃ t, s₁.labelValues = fn₁ :: t := by
      rcases List.mem_cons.mp hs₁ with rfl | hs
      · exact ⟨[], rfl⟩
      · rcases List.mem_append.mp hs with hs | hs <;>
          (rcases List.mem_flatMap.mp hs with ⟨sn, hsn, hm2⟩;
           rcases List.mem_flatMap.mp hm2 with ⟨it, hit, hm3⟩;
           exact ⟨_, (mem_prototypeSamples hm3).2.2.1⟩)
    have l₂ : ∃ t, s₂.labelValues = fn₂ :: t := by
      rcases List.mem_cons.mp hs₂ with rfl | hs
      · exact ⟨[], rfl⟩
      · rcases List.mem_append.mp hs with hs | hs <;>
          (rcases List.mem_flatMap.mp hs with ⟨sn, hsn, hm2⟩;
           rcases List.mem_flatMap.mp hm2 with ⟨it, hit, hm3⟩;
           exact ⟨_, (mem_prototypeSamples hm3).2.2.1⟩)
    obtain ⟨t₁, l₁⟩ := l₁
    obtain ⟨t₂, l₂⟩ := l₂
    have hv := key_snd he
    rw [l₁, l₂] at hv
    simp only [List.cons.injEq] at hv
    exact hne hv.1

theorem nodup_key_pollution (d : Json) (h1 : (d.get1 "pollution").keys.Nodup)
    (h2 : ∀ sn ∈ (d.get1 "pollution").keys, ((d.get1 "pollution").get1 sn).keys.Nodup) :
    ((collectPollutionMetrics d).map sampleKey).Nodup := by
  rw [collectPollutionMetrics]
  apply nodup_map_flatMap sampleKey h1
  · intro sn hsn
    rw [List.map_map]
    exact (h2 sn hsn).map (fun a b hab => by simpa [sampleKey] using hab)
  · intro sn₁ hs₁ sn₂ hs₂ hne s₁ hm₁ s₂ hm₂ he
    rcases List.mem_map.mp hm₁ with ⟨e₁, he₁, rfl⟩
    rcases List.mem_map.mp hm₂ with ⟨e₂, he₂, rfl⟩
    have hv : [e₁, sn₁] = [e₂, sn₂] := key_snd he
    simp only [List.cons.injEq] at hv
    exact hne hv.2.1

theorem nodup_key_surface (d : Json) (h1 : (d.get1 "surfaces").keys.Nodup) :
    ((collectSurfaceMetrics d).map sampleKey).Nodup := by
  rw [collectSurfaceMetrics]
  apply nodup_map_flatMap sampleKey h1
  · intro sn hsn
    show ([("factorio_surface_pollution_total", [sn]),
      ("factorio_surface_ticks_per_day", [sn])] : List (String × List String)).Nodup
    simp
  · intro sn₁ hs₁ sn₂ hs₂ hne s₁ hm₁ s₂ hm₂ he
    have l₁ : s₁.labelValues = [sn₁] := by
      rcases List.mem_cons.mp hm₁ with rfl | hm
      · rfl
      rcases List.mem_cons.mp hm with rfl | hm
      · rfl
      · exact absurd hm (List.not_mem_nil s₁)
    have l₂ : s₂.labelValues = [sn₂] := by
      rcases List.mem_cons.mp hm₂ with rfl | hm
      · rfl
      rcases List.mem_cons.mp hm with rfl | hm
      · rfl
      · exact absurd hm (List.not_mem_nil s₂)
    have hv := key_snd he
    rw [l₁, l₂] at hv
    simp only [List.cons.injEq] at hv
    exact hne hv.1

theorem nodup_key_entity (d : Json) (h1 : (d.get1 "surfaces").keys.Nodup)
    (h2 : ∀ sn ∈ (d.get1 "surfaces").keys,
      (((d.get1 "surfaces").get1 sn).get1 "entities").keys.Nodup) :
    ((collectEntityMetrics d).map sampleKey).Nodup := by
  rw [collectEntityMetrics]
  apply nodup_map_flatMap sampleKey h1
  · intro sn hsn
    rw [List.map_map]
    exact (h2 sn hsn).map (fun a b hab => by simpa [sampleKey] using hab)
  · intro sn₁ hs₁ sn₂ hs₂ hne s₁ hm₁ s₂ hm₂ he
    rcases List.mem_map.mp hm₁ with ⟨e₁, he₁, rfl⟩
    rcases List.mem_map.mp hm₂ with ⟨e₂, he₂, rfl⟩
    have hv : ["player", e₁, sn₁] = ["player", e₂, sn₂] := key_snd he
    simp only [List.cons.injEq] at hv
    exact hne hv.2.2.1

theorem nodup_key_rocket (d : Json) (hforces : (d.get1 "forces").keys.Nodup)
    (hitems : ∀ fn ∈ (d.get1 "forces").keys,
      ((((d.get1 "forces").get1 fn).get1 "rockets").get1 "items").keys.Nodup) :
    ((collectRocketMetrics d).map sampleKey).Nodup := by
  rw [collectRocketMetrics]
  apply nodup_map_flatMap sampleKey hforces
  · intro fn hfn
    rw [List.map_cons, List.nodup_cons]
    constructor
    · intro hmem
      rcases List.mem_map.mp hmem with ⟨s, hs, he⟩
      rcases List.mem_map.mp hs with ⟨it, hit, rfl⟩
      have hf : "factorio_items_launched" = "factorio_rockets_launched" := key_fst he
      simp at hf
    · rw [List.map_map]
      exact (hitems fn hfn).map (fun a b hab => by simpa [sampleKey] using hab)
  · intro fn₁ h₁ fn₂ h₂ hne s₁ hm₁ s₂ hm₂ he
    have l₁ : ∃ t, s₁.labelValues = fn₁ :: t := by
      rcases List.mem_cons.mp hm₁ with rfl | hm
      · exact ⟨[], rfl⟩
      · rcases List.mem_map.mp hm with ⟨it, hit, rfl⟩
        exact ⟨_, rfl⟩
    have l₂ : ∃ t, s₂.labelValues = fn₂ :: t := by
      rcases List.mem_cons.mp hm₂ with rfl | hm
      · exact ⟨[], rfl⟩
      · rcases List.mem_map.mp hm with ⟨it, hit, rfl⟩
        exact ⟨_, rfl⟩
    obtain ⟨t₁, l₁⟩ := l₁
    obtain ⟨t₂, l₂⟩ := l₂
    have hv := key_snd he
    rw [l₁, l₂] at hv
    simp only [List.cons.injEq] at hv
    exact hne hv.1

/-! ## Claim theorems -/

/-- C1 (amended): for every scrape whose load fails — that is, on any I/O
failure of reading the metrics file — `readMetricsData` returns a
`LoadError`, the previously installed snapshot is left unchanged in the
store, and the scrape returns an empty sample sequence. (Structurally
invalid input is not a load failure in this code: see the
counterexample.) -/
theorem c1_io_failure_keeps_store (old : Json) :
    readMetricsData ScrapeInput.ioErr old = (old, some LoadError.ioError) ∧
    Collect ScrapeInput.ioErr old = (old, []) :=
  ⟨rfl, rfl⟩

/-- C1 counterexample: a readable but structurally invalid metrics file is
a failing load in the claim's sense, yet `readMetricsData` returns no
`LoadError`, the previously installed snapshot `loadedDoc` is replaced
(the new store value has no keys while `loadedDoc` has key `"game"`), and
the scrape emits two samples rather than an empty sequence. -/
theorem c1_malformed_counterexample :
    (readMetricsData (ScrapeInput.file FileData.malformed) loadedDoc).2 = none ∧
    (readMetricsData (ScrapeInput.file FileData.malformed) loadedDoc).1 ≠ loadedDoc ∧
    (Collect (ScrapeInput.file FileData.malformed) loadedDoc).2.length = 2 := by
  refine ⟨rfl, ?_, by decide⟩
  intro h
  have h2 := congrArg Json.keys h
  simp [loadedDoc, Json.keys, readMetricsData, jsoniterGet] at h2

/-- C2: for every well-formed snapshot and every force, surface and
prototype name, the production samples of the Force extractor carrying
label values (force, prototype, surface, "items") are exactly: none when
the numeric value at `forces.<force>.items.<surface>.<prototype>.production`
is absent or `≤ 0` (absence coerces to 0), and exactly one Counter sample
carrying that value (so value 5 when it is 5) when it is `> 0`; and the
same suppression rule holds for consumption figures and for the `fluids`
sub-tree with type label "fluids". -/
theorem c2_production_suppression (d : Json) (h : SnapshotWF d) (f sfc p : String) :
    ((collectForceMetrics d).filter
        (sampleMatches "factorio_force_prototype_production" [f, p, sfc, "items"]) =
      if 0 < ((((((d.get1 "forces").get1 f).get1 "items").get1 sfc).get1 p).get1
          "production").toFloat64 then
        [{ family := "factorio_force_prototype_production", mtype := MetricType.counter,
           labelNames := ["force", "prototype", "surface", "type"],
           labelValues := [f, p, sfc, "items"],
           value := ((((((d.get1 "forces").get1 f).get1 "items").get1 sfc).get1 p).get1
             "production").toFloat64 }]
      else []) ∧
    ((collectForceMetrics d).filter
        (sampleMatches "factorio_force_prototype_consumption" [f, p, sfc, "items"]) =
      if 0 < ((((((d.get1 "forces").get1 f).get1 "items").get1 sfc).get1 p).get1
          "consumption").toFloat64 then
        [{ family := "factorio_force_prototype_consumption", mtype := MetricType.counter,
           labelNames := ["force", "prototype", "surface", "type"],
           labelValues := [f, p, sfc, "items"],
           value := ((((((d.get1 "forces").get1 f).get1 "items").get1 sfc).get1 p).get1
             "consumption").toFloat64 }]
      else []) ∧
    ((collectForceMetrics d).filter
        (sampleMatches "factorio_force_prototype_production" [f, p, sfc, "fluids"]) =
      if 0 < ((((((d.get1 "forces").get1 f).get1 "fluids").get1 sfc).get1 p).get1
          "production").toFloat64 then
        [{ family := "factorio_force_prototype_production", mtype := MetricType.counter,
           labelNames := ["force", "prototype", "surface", "type"],
           labelValues := [f, p, sfc, "fluids"],
           value := ((((((d.get1 "forces").get1 f).get1 "fluids").get1 sfc).get1 p).get1
             "production").toFloat64 }]
      else []) ∧
    ((collectForceMetrics d).filter
        (sampleMatches "factorio_force_prototype_consumption" [f, p, sfc, "fluids"]) =
      if 0 < ((((((d.get1 "forces").get1 f).get1 "fluids").get1 sfc).get1 p).get1
          "consumption").toFloat64 then
        [{ family := "factorio_force_prototype_consumption", mtype := MetricType.counter,
           labelNames := ["force", "prototype", "surface", "type"],
           labelValues := [f, p, sfc, "fluids"],
           value := ((((((d.get1 "forces").get1 f).get1 "fluids").get1 sfc).get1 p).get1
             "consumption").toFloat64 }]
      else []) := by
  obtain ⟨hpl, hforces, hfa, hrest⟩ := h
  exact ⟨filter_collectForce d true "items" f sfc p (Or.inl rfl) hforces
      (fun fn hfn => ⟨(hfa fn hfn).1, (hfa fn hfn).2.1⟩),
    filter_collectForce d false "items" f sfc p (Or.inl rfl) hforces
      (fun fn hfn => ⟨(hfa fn hfn).1, (hfa fn hfn).2.1⟩),
    filter_collectForce d true "fluids" f sfc p (Or.inr rfl) hforces
      (fun fn hfn => ⟨(hfa fn hfn).2.2.1, (hfa fn hfn).2.2.2.1⟩),
    filter_collectForce d false "fluids" f sfc p (Or.inr rfl) hforces
      (fun fn hfn => ⟨(hfa fn hfn).2.2.1, (hfa fn hfn).2.2.2.1⟩)⟩

theorem c2_witness :
    ((collectForceMetrics richSnapshot).filter
        (sampleMatches "factorio_force_prototype_production"
          ["player", "iron", "nauvis", "items"])).map Sample.value = [5] ∧
    ((collectForceMetrics richSnapshot).filter
        (sampleMatches "factorio_force_prototype_production"
          ["player", "copper", "nauvis", "items"])).length = 0 := by
  constructor
  · rw [(c2_production_suppression richSnapshot (by decide) "player" "nauvis" "iron").1]
    decide
  · rw [(c2_production_suppression richSnapshot (by decide) "player" "nauvis" "copper").1]
    decide

/-- C3: whenever `readMetricsData` returns a `LoadError`, `Collect` emits
zero samples and leaves the store as `readMetricsData` left it; the error
is only logged, never returned to the caller (`Collect` has no error
output at all in the model, mirroring the `void` channel-send interface). -/
theorem c3_load_error_yields_empty_scrape (inp : ScrapeInput) (old : Json) (e : LoadError)
    (h : (readMetricsData inp old).2 = some e) :
    (Collect inp old).2 = [] ∧ (Collect inp old).1 = (readMetricsData inp old).1 := by
  cases inp with
  | ioErr => exact ⟨rfl, rfl⟩
  | file fd => simp [readMetricsData] at h

theorem c3_witness :
    (Collect ScrapeInput.ioErr Json.null).2 = [] :=
  (c3_load_error_yields_empty_scrape ScrapeInput.ioErr Json.null LoadError.ioError rfl).1

/-- C4: for every well-formed snapshot (key-value tree, so no repeated keys
in any iterated object), no two samples emitted within one extraction pass
share the same (metric family, label values) pair. -/
theorem c4_sample_uniqueness (d : Json) (h : SnapshotWF d) :
    ((collectAll d).map sampleKey).Nodup := by
  obtain ⟨hpl, hforces, hfa, hpol, hpoli, hsurf, hent⟩ := h
  have famP := fam_collectPlayer d
  have famF := fam_collectForce d
  have famPo := fam_collectPollution d
  have famS := fam_collectSurface d
  have famE := fam_collectEntity d
  have famR := fam_collectRocket d
  have nER := nodup_map_append sampleKey (nodup_key_entity d hsurf hent)
    (nodup_key_rocket d hforces (fun fn hfn => (hfa fn hfn).2.2.2.2))
    (fun s₁ h₁ s₂ h₂ => families_disjoint_key_ne (famE s₁ h₁) (famR s₂ h₂) (by decide))
  have famER := fam_append famE famR
  have nSER := nodup_map_append sampleKey (nodup_key_surface d hsurf) nER
    (fun s₁ h₁ s₂ h₂ => families_disjoint_key_ne (famS s₁ h₁) (famER s₂ h₂) (by decide))
  have famSER := fam_append famS famER
  have nPoSER := nodup_map_append sampleKey (nodup_key_pollution d hpol hpoli) nSER
    (fun s₁ h₁ s₂ h₂ => families_disjoint_key_ne (famPo s₁ h₁) (famSER s₂ h₂) (by decide))
  have famPoSER := fam_append famPo famSER
  have nFPoSER := nodup_map_append sampleKey
    (nodup_key_force d hforces (fun fn hfn =>
      ⟨(hfa fn hfn).1, (hfa fn hfn).2.1, (hfa fn hfn).2.2.1, (hfa fn hfn).2.2.2.1⟩))
    nPoSER
    (fun s₁ h₁ s₂ h₂ => families_disjoint_key_ne (famF s₁ h₁) (famPoSER s₂ h₂) (by decide))
  have famFPoSER := fam_append famF famPoSER
  have nPFPoSER := nodup_map_append sampleKey (nodup_key_player d hpl) nFPoSER
    (fun s₁ h₁ s₂ h₂ => families_disjoint_key_ne (famP s₁ h₁) (famFPoSER s₂ h₂) (by decide))
  have famPFPoSER := fam_append famP famFPoSER
  rw [collectAll]
  exact nodup_map_append sampleKey (nodup_key_time d) nPFPoSER
    (fun s₁ h₁ s₂ h₂ =>
      families_disjoint_key_ne (fam_collectTime d s₁ h₁) (famPFPoSER s₂ h₂) (by decide))

theorem c4_witness : ((collectAll richSnapshot).map sampleKey).Nodup :=
  c4_sample_uniqueness richSnapshot (by decide)

/-- C5 (amended): every Counter-typed sample emitted by the Force extractor
(the production and consumption counters) has a strictly positive — hence
non-negative — value, because figures `≤ 0` are suppressed; the game-tick,
rockets-launched and items-launched counters pass the snapshot figure
through unchecked, so they are non-negative only when the snapshot's
figures are (see the counterexample for a negative tick). -/
theorem c5_force_counters_positive (d : Json) (s : Sample)
    (hs : s ∈ collectForceMetrics d) (hc : s.mtype = MetricType.counter) :
    0 < s.value := by
  simp only [collectForceMetrics, List.mem_flatMap, List.mem_cons, List.mem_append] at hs
  rcases hs with ⟨fn, hfn, hmem⟩
  rcases hmem with rfl | hp | hp
  · exact absurd hc (by simp)
  · rcases hp with ⟨sn, hsn, it, hit, hp3⟩
    exact (mem_prototypeSamples hp3).2.2.2
  · rcases hp with ⟨sn, hsn, it, hit, hp3⟩
    exact (mem_prototypeSamples hp3).2.2.2

theorem c5_witness :
    0 < ({ family := "factorio_force_prototype_production", mtype := MetricType.counter,
           labelNames := ["force", "prototype", "surface", "type"],
           labelValues := ["F", "iron", "surf", "items"], value := 5 } : Sample).value :=
  c5_force_counters_positive productionSnapshot _ (by decide) rfl

/-- C5 counterexample: the game-tick counter of a snapshot whose
`game.time.tick` is `-5` is a Counter-typed sample with the negative value
`-5`, so Counter-typed samples of the pipeline are not always
non-negative. -/
theorem c5_negative_tick_counterexample :
    (collectTimeMetrics negativeTick).head? =
      some { family := "factorio_game_tick", mtype := MetricType.counter,
             labelNames := [], labelValues := [], value := -5 } ∧
    ((-5 : ℚ) < 0) := by decide

/-- C6 (amended): the Time extractor reads the fixed snapshot paths
`game.time.tick` and `game.time.paused` (not `time.tick`/`time.paused` at
the document root) and, for every snapshot, emits exactly one counter
sample carrying the tick value and exactly one gauge sample valued 1 if
paused coerces to true and 0 otherwise; an absent tick path yields value
0. -/
theorem c6_time_extractor (d : Json) :
    ((collectTimeMetrics d).filter
        (sampleMatches "factorio_game_tick" [])).map Sample.value =
      [(d.getPath ["game", "time", "tick"]).toFloat64] ∧
    ((collectTimeMetrics d).filter
        (sampleMatches "factorio_game_paused" [])).map Sample.value =
      [if (d.getPath ["game", "time", "paused"]).toBool then 1 else 0] ∧
    (∀ s ∈ collectTimeMetrics d,
      (s.family = "factorio_game_tick" → s.mtype = MetricType.counter) ∧
      (s.family = "factorio_game_paused" → s.mtype = MetricType.gauge)) ∧
    (d.getPath ["game", "time", "tick"] = Json.invalid →
      (d.getPath ["game", "time", "tick"]).toFloat64 = 0) := by
  refine ⟨rfl, rfl, ?_, ?_⟩
  · intro s hs
    rcases List.mem_cons.mp hs with rfl | hs
    · exact ⟨fun _ => rfl, fun hf => absurd hf (by simp)⟩
    rcases List.mem_cons.mp hs with rfl | hs
    · exact ⟨fun hf => absurd hf (by simp), fun _ => rfl⟩
    · exact absurd hs (List.not_mem_nil s)
  · intro h
    rw [h]
    rfl

theorem c6_witness :
    ((Json.obj []).getPath ["game", "time", "tick"]).toFloat64 = 0 :=
  (c6_time_extractor (Json.obj [])).2.2.2 rfl

/-- C6 counterexample: on a snapshot that stores the tick at the
spec-claimed path `time.tick` (value 7, with `time.paused` true), the Time
extractor emits tick value 0 and pause value 0 — it does not read
`time.tick`/`time.paused`. -/
theorem c6_root_time_counterexample :
    (collectTimeMetrics timeAtRoot).map Sample.value = [0, 0] ∧
    (timeAtRoot.getPath ["time", "tick"]).toFloat64 = 7 ∧
    (timeAtRoot.getPath ["time", "paused"]).toBool = true := by decide

/-- C7: if the `players` subsection is entirely absent the Player extractor
emits the empty sequence (no failure — absence reads as the invalid value);
otherwise, for every key under `players` it emits exactly one gauge sample
labelled by that username (one sample per occurrence of the key), whose
value is 1 if `players.<username>.connected` coerces to true and 0
otherwise, and every emitted sample is of that form. -/
theorem c7_player_extractor (d : Json) :
    (d.get1 "players" = Json.invalid → collectPlayerStateMetrics d = []) ∧
    (∀ u, ((collectPlayerStateMetrics d).filter
        (sampleMatches "factorio_player_connected" [u])).length =
      (d.get1 "players").keys.count u) ∧
    (∀ s ∈ collectPlayerStateMetrics d, s.family = "factorio_player_connected" ∧
      s.mtype = MetricType.gauge ∧ s.labelNames = ["username"] ∧
      ∃ u ∈ (d.get1 "players").keys, s.labelValues = [u] ∧
        s.value = if (d.getPath ["players", u, "connected"]).toBool then 1 else 0) := by
  refine ⟨?_, ?_, ?_⟩
  · intro h
    rw [collectPlayerStateMetrics, h]
    rfl
  · intro u
    rw [collectPlayerStateMetrics, List.filter_map, List.length_map,
      List.count_eq_countP, List.countP_eq_length_filter]
    congr 1
    apply List.filter_congr
    intro k hk
    by_cases h : k = u
    · simp [sampleMatches, Function.comp, h]
    · simp [sampleMatches, Function.comp, h]
  · intro s hs
    rcases List.mem_map.mp hs with ⟨u, hu, rfl⟩
    exact ⟨rfl, rfl, rfl, u, hu, rfl, rfl⟩

theorem c7_witness : collectPlayerStateMetrics Json.null = [] :=
  (c7_player_extractor Json.null).1 rfl

/-- C8: on the snapshot with `forces.Engineers.rockets.launches = 12` and
`forces.Engineers.rockets.items.iron-plate = 300`, the Rocket extractor
emits exactly one rockets-launched Counter sample of value 12 labelled
`force=Engineers` and exactly one items-launched Counter sample of value
300 labelled `force=Engineers, name=iron-plate`, and nothing else. -/
theorem c8_rocket_example :
    collectRocketMetrics rocketSnapshot =
      [ { family := "factorio_rockets_launched", mtype := MetricType.counter,
          labelNames := ["force"], labelValues := ["Engineers"], value := 12 },
        { family := "factorio_items_launched", mtype := MetricType.counter,
          labelNames := ["force", "name"], labelValues := ["Engineers", "iron-plate"],
          value := 300 } ] := by decide

/-- C9: extraction is a pure function of the stored snapshot — running the
pipeline twice on the same snapshot yields identical sample lists, and
re-running the pipeline on the document a scrape stored reproduces that
scrape's samples. In the embedding, as in the code, the extractors read
only the stored document, so this is definitional. -/
theorem c9_extraction_deterministic (s : Json) (fd : FileData) (old : Json) :
    collectAll s = collectAll s ∧
    (Collect (ScrapeInput.file fd) old).2 =
      collectAll ((Collect (ScrapeInput.file fd) old).1) :=
  ⟨rfl, rfl⟩

/-- C10: every value emitted by the Rocket extractor is the cast of an
integer (the `ToInt` conversion), and concretely a fractional launches or
items figure of 12.5 is truncated to 12 and one of -3.7 to -3 (toward
zero), while the same figure 12.5 fed to a production counter is passed
through as 12.5 (the research gauge of that force reading 0). -/
theorem c10_rocket_toInt_truncation :
    (∀ d : Json, ∀ s ∈ collectRocketMetrics d, ∃ n : ℤ, s.value = (n : ℚ)) ∧
    (collectRocketMetrics (fractionalSnapshot (mkRat 25 2))).map Sample.value = [12, 12] ∧
    (collectRocketMetrics (fractionalSnapshot (mkRat (-37) 10))).map Sample.value = [-3, -3] ∧
    (collectForceMetrics (fractionalSnapshot (mkRat 25 2))).map Sample.value =
      [0, mkRat 25 2] := by
  refine ⟨?_, by decide, by decide, by decide⟩
  intro d s hs
  simp only [collectRocketMetrics, List.mem_flatMap, List.mem_cons, List.mem_map] at hs
  rcases hs with ⟨fn, hfn, rfl | ⟨it, hit, rfl⟩⟩ <;> exact ⟨_, rfl⟩

theorem c10_witness :
    ∃ n : ℤ, ({ family := "factorio_rockets_launched", mtype := MetricType.counter,
                labelNames := ["force"], labelValues := ["Engineers"],
                value := 12 } : Sample).value = (n : ℚ) :=
  c10_rocket_toInt_truncation.1 rocketSnapshot _ (by decide)
